import Mathlib

/-
Verification of the synchronization-progress engine of the Airbyte Python CDK
(`airbyte_cdk/sources/streams/core.py`): the partition-iteration loop
(`Stream.read`), the two checkpoint readers (`IncrementalCheckpointReader`,
`ResumableFullRefreshCheckpointReader`), and the legacy state-reconciliation
helpers (`Stream._checkpoint_state`, `Stream._observe_state_wrapper`,
`Stream._wrapped_primary_key`, `Stream.supports_incremental`).

Python values that flow through this code (states, slices, records, primary
keys) are modelled by the inductive `PyVal`; Python truthiness by `truthy`;
an `AttributeError` raised by the `self.state` property read is modelled by
`Option.none` from the accessor function. Fallible code returns `Except`.
-/

/-- A Python value, as far as this module's code inspects one:
`None`, booleans, integers, strings, lists, mappings (dicts as association
lists), and generator objects (a generator that will yield the given list of
values; generators are always truthy in Python and are neither `str` nor
`list` instances). -/
inductive PyVal where
  | none
  | bool (b : Bool)
  | int (n : Int)
  | str (s : String)
  | list (xs : List PyVal)
  | dict (fields : List (String × PyVal))
  | genObj (xs : List PyVal)

/-- Python truthiness of a `PyVal` (`bool(v)`). -/
def truthy : PyVal → Bool
  | .none => false
  | .bool b => b
  | .int n => n != 0
  | .str s => !s.isEmpty
  | .list xs => !xs.isEmpty
  | .dict fields => !fields.isEmpty
  | .genObj _ => true

/-- `v == {}` in Python: true exactly for the empty mapping. -/
def PyVal.isEmptyDict : PyVal → Bool
  | .dict [] => true
  | _ => false

/-- `isinstance(v, str)`. -/
def PyVal.isStrVal : PyVal → Bool
  | .str _ => true
  | _ => false

/-- `isinstance(v, list)`. -/
def PyVal.isListVal : PyVal → Bool
  | .list _ => true
  | _ => false

/-- The configured sync mode (`airbyte_cdk.models.SyncMode`). -/
inductive SyncMode where
  | full_refresh
  | incremental
deriving DecidableEq

/-- `FULL_REFRESH_SENTINEL_STATE_KEY` (core.py line 36). -/
def FULL_REFRESH_SENTINEL_STATE_KEY : String := "__ab_full_refresh_state_message"

/-- The sentinel state substituted for full-refresh streams with no usable
state: `{FULL_REFRESH_SENTINEL_STATE_KEY: True}` (core.py line 295). -/
def fullRefreshSentinelState : PyVal :=
  PyVal.dict [(FULL_REFRESH_SENTINEL_STATE_KEY, PyVal.bool true)]

/-- The stream's declared `cursor_field` property value
(`Union[str, List[str]]`, core.py lines 352-358; the default is `[]`). -/
inductive CursorField where
  | str (s : String)
  | list (xs : List String)

/-- Python truthiness of the declared cursor field
(used by the `if self.cursor_field` gate at core.py line 268). -/
def CursorField.pyTruthy : CursorField → Bool
  | .str s => !s.isEmpty
  | .list xs => !xs.isEmpty

/-- `Stream._wrapped_cursor_field` (core.py lines 349-350):
`[self.cursor_field] if isinstance(self.cursor_field, str) else self.cursor_field`. -/
def Stream.wrappedCursorField : CursorField → List String
  | .str s => [s]
  | .list xs => xs

/-- `Stream.supports_incremental` (core.py lines 342-347):
`len(self._wrapped_cursor_field()) > 0`. -/
def Stream.supportsIncremental (cf : CursorField) : Bool :=
  decide (0 < (Stream.wrappedCursorField cf).length)

/-- An item yielded by a stream's `read_records` (`StreamData`,
core.py line 30): either a plain `Mapping` record, or an `AirbyteMessage`
whose `type` is `RECORD` (carrying the record payload), or an
`AirbyteMessage` of some other type. -/
inductive StreamData where
  | mapping (m : PyVal)
  | recordMsg (payload : PyVal)
  | otherMsg

/-- The `isinstance(record_data_or_message, Mapping) or (hasattr .. and
type == MessageType.RECORD)` test of core.py lines 260-262. -/
def StreamData.isDataRecord : StreamData → Bool
  | .mapping _ => true
  | .recordMsg _ => true
  | .otherMsg => false

/-- `record_data` extraction (core.py line 263): the mapping itself, or
`record_data_or_message.record` for a RECORD message. -/
def StreamData.recordData : StreamData → PyVal
  | .mapping m => m
  | .recordMsg p => p
  | .otherMsg => PyVal.none

/-- An item yielded by `Stream.read`: a slice log message (line 251), a
record or passthrough message (line 259), or a state/checkpoint message
(lines 279, 286, 299). A state message carries the mapping handed to the
state manager via update-then-create. -/
inductive Emitted where
  | sliceLog (s : PyVal)
  | data (d : StreamData)
  | state (s : PyVal)

/-- The `Emitted` item is a state (checkpoint) message. -/
def Emitted.isState : Emitted → Bool
  | .state _ => true
  | _ => false

/-- The abstract `CheckpointReader` interface (core.py lines 108-136), over
a reader-state type `σ`. `next` returns `Option.none` to model the call
raising `StopIteration`, otherwise the produced unit of work together with
the reader's new state. -/
structure CheckpointReader (σ : Type) where
  next : σ → Option (PyVal × σ)
  has_next : σ → Bool
  observe : PyVal → σ → σ
  read_state : σ → PyVal

/-- `IncrementalCheckpointReader` (core.py lines 139-159) as the code is
written. Its reader state is `(self._state, self._stream_slices)`.
Because `next` is declared with a `yield` statement
(`def next(self): yield self._stream_slices`), calling it executes no body
code: it returns a fresh generator object wrapping the whole
`_stream_slices` iterable and never raises `StopIteration`. -/
def IncrementalCheckpointReader : CheckpointReader (PyVal × List PyVal) where
  next := fun s => some (PyVal.genObj s.2, s)
  has_next := fun _ => true
  observe := fun v s => (v, s.2)
  read_state := fun s => s.1

/-- `IncrementalCheckpointReader.__init__` (lines 140-142):
`self._state = None`, `self._stream_slices = stream_slices`. -/
def incrementalInit (slices : List PyVal) : PyVal × List PyVal :=
  (PyVal.none, slices)

/-- `ResumableFullRefreshCheckpointReader` (core.py lines 162-178). Reader
state is `self._state`. `next` returns the stored state, `has_next` is
`self._state != {}`, `observe` overwrites the stored state. -/
def ResumableFullRefreshCheckpointReader : CheckpointReader PyVal where
  next := fun s => some (s, s)
  has_next := fun s => !s.isEmptyDict
  observe := fun v _ => v
  read_state := fun s => s

/-- `ResumableFullRefreshCheckpointReader.__init__` (line 164):
`self._state = None`. -/
def rfrInit : PyVal := PyVal.none

/-- The behaviour of one stream instance during one `Stream.read` call.

`accessor i` is the result of the `i`-th attempted read of the `self.state`
property during the call (`Option.none` models the read raising
`AttributeError`, i.e. the explicit state accessor is not implemented at
that moment); properties are re-read on every attempt, so the results form
a sequence. `readRecordsResult i` is the (finite) sequence of items the
`i`-th `read_records` call yields. `getUpdatedState` is the deprecated
`Stream.get_updated_state(current_stream_state, latest_record)`.
`shouldLogSlice` models the partition-trace policy collaborator
(`slice_logger.should_log_slice_message`, spec section 6). `limit` models
the optional internal record-count limit of `InternalConfig`. -/
structure StreamSpec where
  supportsResumableFullRefresh : Bool
  cursorField : CursorField
  stateCheckpointInterval : Option Nat
  streamSlices : List PyVal
  accessor : Nat → Option PyVal
  readRecordsResult : Nat → List StreamData
  getUpdatedState : PyVal → PyVal → PyVal
  shouldLogSlice : Bool
  limit : Option Nat

/-- Modelled from the spec: `InternalConfig.is_limit_reached(record_counter)`
(the class lives in `sources/utils/schema_helpers.py`, not part of the
sources here; spec section 4.3: "If the internal record-count limit is
reached, stop consuming this unit's records early"). -/
def isLimitReached (limit : Option Nat) (recordCounter : Nat) : Bool :=
  match limit with
  | Option.none => false
  | some l => decide (l ≤ recordCounter)

/-- The `if checkpoint_interval and record_counter % checkpoint_interval == 0`
test of core.py line 277 (`checkpoint_interval` is falsy when `None` or 0). -/
def intervalHit (interval : Option Nat) (recordCounter : Nat) : Bool :=
  match interval with
  | Option.none => false
  | some k => k != 0 && recordCounter % k == 0

/-- `Stream._checkpoint_state` (core.py lines 488-503): the state mapping
handed to `state_manager.update_state_for_stream` and read back by
`create_state_message`. `acc` is the `self.state` property read at this
call (`Option.none` = `AttributeError`), in which case the supplied
`stream_state` is the fallback. The function is total: the
`AttributeError` never propagates. -/
def checkpointStateValue (acc : Option PyVal) (stream_state : PyVal) : PyVal :=
  match acc with
  | some v => v
  | Option.none => stream_state

/-- `Stream._observe_state_wrapper` (core.py lines 506-522): resolve
`new_state` as the `self.state` property read (`acc`) or, on
`AttributeError`, the `stream_state` argument (`fallback`, default `None`);
then `if new_state: checkpoint_reader.observe(new_state)`. Returns the
reader's (possibly unchanged) state. -/
def observeStateWrapper {σ : Type} (R : CheckpointReader σ) (acc : Option PyVal)
    (fallback : PyVal) (s : σ) : σ :=
  let newState := checkpointStateValue acc fallback
  if truthy newState then R.observe newState s else s

/-- `Stream._new_checkpoint_state` (core.py lines 525-534): the state
mapping handed to the state manager is `checkpoint_reader.read_state()`. -/
def newCheckpointStateValue {σ : Type} (R : CheckpointReader σ) (s : σ) : PyVal :=
  R.read_state s

/-- The `for record_data_or_message in records:` body of `Stream.read`
(core.py lines 258-282). Arguments after the record list: reader state,
next accessor-attempt index, `record_counter`. Returns the emitted items,
the reader state, the accessor index and the counter after the loop
(an early `break` on the record limit, line 282, only ends this inner
loop). -/
def processRecords {σ : Type} (spec : StreamSpec) (R : CheckpointReader σ)
    (mode : SyncMode) (stream_state : PyVal) :
    List StreamData → σ → Nat → Nat → List Emitted × σ × Nat × Nat
  | [], s, acc, cnt => ([], s, acc, cnt)
  | r :: rest, s, acc, cnt =>
    if r.isDataRecord then
      let rd := r.recordData
      let s1acc1 :=
        if spec.cursorField.pyTruthy && !spec.supportsResumableFullRefresh then
          (observeStateWrapper R (spec.accessor acc)
            (spec.getUpdatedState stream_state rd) s, acc + 1)
        else (s, acc)
      let cnt1 := cnt + 1
      let ckacc2 :=
        if mode = SyncMode.incremental &&
            intervalHit spec.stateCheckpointInterval cnt1 then
          ([Emitted.state (checkpointStateValue (spec.accessor s1acc1.2) stream_state)],
            s1acc1.2 + 1)
        else ([], s1acc1.2)
      if isLimitReached spec.limit cnt1 then
        (Emitted.data r :: ckacc2.1, s1acc1.1, ckacc2.2, cnt1)
      else
        let rec' := processRecords spec R mode stream_state rest s1acc1.1 ckacc2.2 cnt1
        (Emitted.data r :: ckacc2.1 ++ rec'.1, rec'.2.1, rec'.2.2.1, rec'.2.2.2)
    else
      let rec' := processRecords spec R mode stream_state rest s acc cnt
      (Emitted.data r :: rec'.1, rec'.2.1, rec'.2.2.1, rec'.2.2.2)

/-- The observable outcome of the partition loop of `Stream.read`:
emitted items, final reader state, next accessor-attempt index,
`record_counter`, `has_slices`, the number of `read_records` calls, and
whether the `while` loop terminated (`completed = false` means the fuel
ran out before the Python loop would have exited, in which case nothing
after the loop is modelled). -/
structure LoopState (σ : Type) where
  out : List Emitted
  rstate : σ
  accIdx : Nat
  recordCounter : Nat
  hasSlices : Bool
  rrCalls : Nat
  completed : Bool

/-- The `while not is_complete:` loop of `Stream.read` (core.py lines
243-288), fuel-indexed. One iteration: pull `next()` (a raised
`StopIteration` breaks the loop, line 246-247), set `has_slices`,
optionally emit the slice log message, run `read_records` and the record
loop, reconcile state once more (line 283), emit the partition-boundary
checkpoint (lines 284-286), then `is_complete = checkpoint_reader.has_next()`
(line 288, written exactly as in the source, without negation). -/
def readLoop {σ : Type} (spec : StreamSpec) (R : CheckpointReader σ)
    (mode : SyncMode) (stream_state : PyVal) :
    Nat → σ → Nat → Nat → Bool → Nat → LoopState σ
  | 0, s, acc, cnt, hs, rr => ⟨[], s, acc, cnt, hs, rr, false⟩
  | fuel + 1, s, acc, cnt, hs, rr =>
    match R.next s with
    | Option.none => ⟨[], s, acc, cnt, hs, rr, true⟩
    | some (slice, s0) =>
      let logE := if spec.shouldLogSlice then [Emitted.sliceLog slice] else []
      let recs := spec.readRecordsResult rr
      let pr := processRecords spec R mode stream_state recs s0 acc cnt
      let s2 := observeStateWrapper R (spec.accessor pr.2.2.1) PyVal.none pr.2.1
      let boundary := Emitted.state (newCheckpointStateValue R s2)
      let acc2 := pr.2.2.1 + 1
      let isComplete := R.has_next s2
      if isComplete then
        ⟨logE ++ pr.1 ++ [boundary], s2, acc2, pr.2.2.2, true, rr + 1, true⟩
      else
        let rest := readLoop spec R mode stream_state fuel s2 acc2 pr.2.2.2 true (rr + 1)
        ⟨logE ++ pr.1 ++ [boundary] ++ rest.out, rest.rstate, rest.accIdx,
          rest.recordCounter, rest.hasSlices, rest.rrCalls, rest.completed⟩

/-- The observable result of a `Stream.read` call, with the reader-state
type projected away through the reader's own `read_state`/`has_next`. -/
structure ReadResult where
  out : List Emitted
  finalReadState : PyVal
  finalHasNext : Bool
  accIdx : Nat
  recordCounter : Nat
  hasSlices : Bool
  rrCalls : Nat
  completed : Bool

/-- The loop plus post-loop part of `Stream.read` (core.py lines 240-299)
over an arbitrary `CheckpointReader` instance: run the partition loop from
reader state `init` (with `accStart` accessor attempts already consumed),
then, if the loop terminated and `not has_slices or sync_mode ==
SyncMode.full_refresh` (line 290), substitute the sentinel state for a
falsy `stream_state` in full-refresh mode (line 295) and emit the final
checkpoint via `Stream._checkpoint_state` (lines 298-299). -/
def readWith {σ : Type} (spec : StreamSpec) (R : CheckpointReader σ) (init : σ)
    (accStart : Nat) (mode : SyncMode) (stream_state : PyVal) (fuel : Nat) :
    ReadResult :=
  let lr := readLoop spec R mode stream_state fuel init accStart 0 false 0
  let base : ReadResult :=
    ⟨lr.out, R.read_state lr.rstate, R.has_next lr.rstate, lr.accIdx,
      lr.recordCounter, lr.hasSlices, lr.rrCalls, lr.completed⟩
  if lr.completed then
    if !lr.hasSlices || mode = SyncMode.full_refresh then
      let ss :=
        if mode = SyncMode.full_refresh then
          if truthy stream_state then stream_state else fullRefreshSentinelState
        else stream_state
      let finalMsg := Emitted.state (checkpointStateValue (spec.accessor lr.accIdx) ss)
      { base with out := lr.out ++ [finalMsg], accIdx := lr.accIdx + 1 }
    else base
  else base

/-- `Stream.read` (core.py lines 213-299): pick the checkpoint reader from
`self.supports_resumable_full_refresh` (lines 225-238); for the
resumable-full-refresh reader, first observe the stream's self-reported
state (line 230, consuming accessor attempt 0); then run the loop and the
post-loop final checkpoint. -/
def Stream.read (spec : StreamSpec) (mode : SyncMode) (stream_state : PyVal)
    (fuel : Nat) : ReadResult :=
  if spec.supportsResumableFullRefresh then
    let s0 := observeStateWrapper ResumableFullRefreshCheckpointReader
      (spec.accessor 0) PyVal.none rfrInit
    readWith spec ResumableFullRefreshCheckpointReader s0 1 mode stream_state fuel
  else
    readWith spec IncrementalCheckpointReader (incrementalInit spec.streamSlices)
      0 mode stream_state fuel

/-- The body of the `for component in keys:` loop of
`Stream._wrapped_primary_key` (core.py lines 476-484): string components
are wrapped in a singleton list, list components pass through unchanged,
anything else raises `ValueError` (modelled as `Except.error`). -/
def wrapComponents : List PyVal → Except String (List PyVal)
  | [] => Except.ok []
  | c :: rest =>
    match c with
    | PyVal.str s =>
      (wrapComponents rest).map (fun ws => PyVal.list [PyVal.str s] :: ws)
    | PyVal.list l =>
      (wrapComponents rest).map (fun ws => PyVal.list l :: ws)
    | _ => Except.error "Element must be either list or str"

/-- `Stream._wrapped_primary_key` (core.py lines 465-486): `None` for a
falsy declaration, `[[keys]]` for a string, the component-wise wrapping for
a list, and `ValueError` (modelled as `Except.error`) otherwise. -/
def Stream.wrappedPrimaryKey (keys : PyVal) : Except String (Option (List PyVal)) :=
  if truthy keys = false then Except.ok Option.none
  else
    match keys with
    | PyVal.str s => Except.ok (some [PyVal.list [PyVal.str s]])
    | PyVal.list comps => (wrapComponents comps).map some
    | _ => Except.error "Element must be either list or str"

/-- Claim-side predicate, following claim C8's words: the identity-key
declaration is well formed when it is absent, a string, a flat list of
strings, or a list of lists. -/
def specWellFormedPK : PyVal → Bool
  | PyVal.none => true
  | PyVal.str _ => true
  | PyVal.list comps => comps.all PyVal.isStrVal || comps.all PyVal.isListVal
  | _ => false

/-- The amended raise condition for `Stream._wrapped_primary_key`: the
declaration is truthy and neither a string nor a list, or it is a list
containing a component that is neither a string nor a list. -/
def amendedPKMalformed : PyVal → Bool
  | PyVal.list comps => comps.any (fun c => !(c.isStrVal || c.isListVal))
  | k => truthy k && !k.isStrVal

/-- The per-component wrapped form described by claim C8: a string
component `s` becomes `[s]`, a list component passes through unchanged. -/
def wrapOneComponent : PyVal → PyVal
  | PyVal.str s => PyVal.list [PyVal.str s]
  | c => c

/-- A mixed identity-key declaration, `["a", ["b"]]`: neither a flat list
of strings nor a list of lists. -/
def mixedPK : PyVal := PyVal.list [PyVal.str "a", PyVal.list [PyVal.str "b"]]

/-- A checkpoint reader whose partition sequence is exhausted from the
start: the first `next()` call raises `StopIteration` (the
`IncrementalCheckpointReader` contract over an empty partition sequence,
as the `except StopIteration` arm of core.py lines 244-247 expects it).
Used to express runs in which zero partitions are produced. -/
def exhaustedReader : CheckpointReader Unit where
  next := fun _ => Option.none
  has_next := fun _ => false
  observe := fun _ s => s
  read_state := fun _ => PyVal.none

/-- The pagination state `{"page": 1}` of the resumable-full-refresh
scenario in the spec (section 8). -/
def pageState : PyVal := PyVal.dict [("page", PyVal.int 1)]

/-- The resumable-full-refresh scenario of claim C3 / spec section 8: the
stream's state accessor reports `{}` before any partition is read
(attempt 0) and `{"page": 1}` from then on (i.e. after the first
`read_records` call); each `read_records` call yields one data record. -/
def rfrScenario : StreamSpec where
  supportsResumableFullRefresh := true
  cursorField := CursorField.list []
  stateCheckpointInterval := Option.none
  streamSlices := []
  accessor := fun i => if i == 0 then some (PyVal.dict []) else some pageState
  readRecordsResult := fun _ => [StreamData.mapping (PyVal.dict [("id", PyVal.int 1)])]
  getUpdatedState := fun _ _ => PyVal.none
  shouldLogSlice := false
  limit := Option.none

/-- Data record `{"id": 1}`. -/
def rec1 : PyVal := PyVal.dict [("id", PyVal.int 1)]

/-- Data record `{"id": 2}`. -/
def rec2 : PyVal := PyVal.dict [("id", PyVal.int 2)]

/-- A non-cursor stream with checkpoint interval 1 whose single partition
yields two data records, and whose state accessor is never implemented. -/
def intervalOneScenario : StreamSpec where
  supportsResumableFullRefresh := false
  cursorField := CursorField.list []
  stateCheckpointInterval := some 1
  streamSlices := [PyVal.none]
  accessor := fun _ => Option.none
  readRecordsResult := fun i =>
    if i == 0 then [StreamData.mapping rec1, StreamData.mapping rec2] else []
  getUpdatedState := fun _ _ => PyVal.none
  shouldLogSlice := false
  limit := Option.none

/-- Incoming stream state `{"k": 1}` used by the interval scenarios. -/
def ssK1 : PyVal := PyVal.dict [("k", PyVal.int 1)]

/-- Explicit accessor state `{"updated_at": 20}` of the reconciliation
scenario. -/
def accState20 : PyVal := PyVal.dict [("updated_at", PyVal.int 20)]

/-- Legacy `get_updated_state` result `{"updated_at": 5}` of the
reconciliation scenario. -/
def legacyState5 : PyVal := PyVal.dict [("updated_at", PyVal.int 5)]

/-- Incoming stream state `{"updated_at": 1}` of the reconciliation
scenario. -/
def ssU1 : PyVal := PyVal.dict [("updated_at", PyVal.int 1)]

/-- The reconciliation scenario of claim C6: a cursor stream with
checkpoint interval 1 whose single partition yields two data records; the
explicit state accessor raises `AttributeError` on its first two attempted
reads and reports `{"updated_at": 20}` from the third attempt on; the
legacy `get_updated_state` always reports `{"updated_at": 5}`. -/
def reconScenario : StreamSpec where
  supportsResumableFullRefresh := false
  cursorField := CursorField.str "updated_at"
  stateCheckpointInterval := some 1
  streamSlices := [PyVal.none]
  accessor := fun i => if i ≤ 1 then Option.none else some accState20
  readRecordsResult := fun i =>
    if i == 0 then [StreamData.mapping rec1, StreamData.mapping rec2] else []
  getUpdatedState := fun _ _ => legacyState5
  shouldLogSlice := false
  limit := Option.none

/-- A family of non-cursor streams with checkpoint interval `N` whose
single partition yields the data records `ds`, with the state accessor
never implemented. -/
def intervalScenario (N : Nat) (ds : List PyVal) : StreamSpec where
  supportsResumableFullRefresh := false
  cursorField := CursorField.list []
  stateCheckpointInterval := some N
  streamSlices := [PyVal.none]
  accessor := fun _ => Option.none
  readRecordsResult := fun i => if i == 0 then ds.map StreamData.mapping else []
  getUpdatedState := fun _ _ => PyVal.none
  shouldLogSlice := false
  limit := Option.none

/-- Spec-side description of interval checkpointing (claim C5 as amended):
the data records `ds` emitted in order, with a checkpoint carrying `ck`
flushed immediately after every record whose (1-based, continued from `k`)
count is a multiple of `N`. -/
def interleaveAfterEveryNth (ck : PyVal) (N : Nat) : List PyVal → Nat → List Emitted
  | [], _ => []
  | d :: rest, k =>
    Emitted.data (StreamData.mapping d) ::
      ((if (k + 1) % N == 0 then [Emitted.state ck] else []) ++
        interleaveAfterEveryNth ck N rest (k + 1))

theorem truthy_ne_emptyDict {v : PyVal} (h : truthy v = true) : v ≠ PyVal.dict [] := by
  intro he; subst he; simp [truthy] at h

theorem isEmptyDict_eq_true_iff (s : PyVal) :
    s.isEmptyDict = true ↔ s = PyVal.dict [] := by
  constructor
  · intro h
    cases s with
    | dict fields =>
      cases fields with
      | nil => rfl
      | cons p ps => simp [PyVal.isEmptyDict] at h
    | none => simp [PyVal.isEmptyDict] at h
    | bool b => simp [PyVal.isEmptyDict] at h
    | int n => simp [PyVal.isEmptyDict] at h
    | str s => simp [PyVal.isEmptyDict] at h
    | list xs => simp [PyVal.isEmptyDict] at h
    | genObj xs => simp [PyVal.isEmptyDict] at h
  · intro h; subst h; rfl

/-- C1: the claim states that the synchronization loop continues to the
next unit of work iff `has_next()` returns true. The code (core.py line
288) assigns `is_complete = checkpoint_reader.has_next()` without negating
it, so the loop stops exactly when `has_next()` is true. In the
resumable-full-refresh scenario the run completes its `while` loop while
the reader's `has_next()` is still true, after a single `read_records`
call: units of work remain but none is pulled. -/
theorem C1_loop_stops_while_units_remain :
    (Stream.read rfrScenario SyncMode.full_refresh (PyVal.dict []) 5).finalHasNext = true ∧
    (Stream.read rfrScenario SyncMode.full_refresh (PyVal.dict []) 5).completed = true ∧
    (Stream.read rfrScenario SyncMode.full_refresh (PyVal.dict []) 5).rrCalls = 1 :=
  ⟨rfl, rfl, rfl⟩

/-- C2: the claim states that `IncrementalCheckpointReader.next()` returns
the next partition from the wrapped sequence and raises `StopIteration` on
exhaustion. Because `next` is a generator function
(`def next(self): yield self._stream_slices`, core.py lines 144-145),
calling it returns a fresh generator object wrapping the whole slice
iterable — even when the sequence is empty it does not raise — and the
returned value is never an element of the sequence. `has_next()` does
always return true, as the claim states. -/
theorem C2_incremental_reader_next_code :
    IncrementalCheckpointReader.next (incrementalInit []) =
      some (PyVal.genObj [], incrementalInit []) ∧
    (∀ (st : PyVal) (sl : List PyVal),
      IncrementalCheckpointReader.next (st, sl) = some (PyVal.genObj sl, (st, sl))) ∧
    (∀ s, IncrementalCheckpointReader.has_next s = true) :=
  ⟨rfl, fun _ _ => rfl, fun _ => rfl⟩

/-- C3: the claim states that the resumable-full-refresh scenario (state
accessor reports `{"page": 1}` after the first partition read) performs
exactly two `read_records` calls and terminates after observing the empty
mapping. On the code, the run performs exactly one `read_records` call and
stops right after observing `{"page": 1}` (the inverted `is_complete`
assignment of core.py line 288): the emitted sequence is the single
record, the partition-boundary checkpoint `{"page": 1}`, and the post-loop
full-refresh checkpoint, again `{"page": 1}`. -/
theorem C3_rfr_scenario_single_read :
    (Stream.read rfrScenario SyncMode.full_refresh (PyVal.dict []) 5).rrCalls = 1 ∧
    (Stream.read rfrScenario SyncMode.full_refresh (PyVal.dict []) 5).out =
      [Emitted.data (StreamData.mapping rec1),
       Emitted.state pageState, Emitted.state pageState] :=
  ⟨rfl, rfl⟩

/-- C4: for `ResumableFullRefreshCheckpointReader`, `has_next()` returns
false iff the stored state equals the empty mapping; the initial
not-yet-observed state (`None`) is distinct from the empty mapping and
reports `has_next() = true`; and `next()` returns the currently stored
pagination state itself. -/
theorem C4_rfr_reader_state_machine :
    (∀ s : PyVal,
      ResumableFullRefreshCheckpointReader.has_next s = false ↔ s = PyVal.dict []) ∧
    ResumableFullRefreshCheckpointReader.has_next rfrInit = true ∧
    rfrInit ≠ PyVal.dict [] ∧
    (∀ s : PyVal, ResumableFullRefreshCheckpointReader.next s = some (s, s)) := by
  refine ⟨fun s => ?_, rfl, by intro h; exact PyVal.noConfusion h, fun s => rfl⟩
  have hstep : ResumableFullRefreshCheckpointReader.has_next s = false ↔
      s.isEmptyDict = true := by
    show (!s.isEmptyDict) = false ↔ s.isEmptyDict = true
    cases s.isEmptyDict <;> simp
  rw [hstep]
  exact isEmptyDict_eq_true_iff s

/-- C6: on every state-reconciliation call the explicit state accessor is
attempted first and its value used when present; only on `AttributeError`
(modelled as `Option.none`) does `Stream._checkpoint_state` fall back to
the supplied stream state — and it is total, so the failure never
propagates. The concrete run shows the fallback re-attempted per call
rather than cached: the accessor is absent for the first two attempts and
present afterwards, and the two interval checkpoints carry, in order, the
supplied snapshot `{"updated_at": 1}` and then the accessor's
`{"updated_at": 20}` (not the legacy `{"updated_at": 5}`). -/
theorem C6_reconciliation_preference :
    (∀ v fb : PyVal, checkpointStateValue (some v) fb = v) ∧
    (∀ fb : PyVal, checkpointStateValue Option.none fb = fb) ∧
    (Stream.read reconScenario SyncMode.incremental ssU1 5).out =
      [Emitted.data (StreamData.mapping rec1), Emitted.state ssU1,
       Emitted.data (StreamData.mapping rec2), Emitted.state accState20,
       Emitted.state accState20] :=
  ⟨fun _ _ => rfl, fun _ => rfl, rfl⟩

/-- C10: `Stream._observe_state_wrapper` leaves the reader's stored state
unchanged whenever the resolved state value is falsy (in particular `None`
or the empty mapping — so an empty mapping reported by the accessor is
never passed to `observe()`); consequently the pagination-based reader's
stored state can never become the empty mapping through the reconciliation
path, even though `ResumableFullRefreshCheckpointReader.observe` itself
unconditionally overwrites the stored state. -/
theorem C10_observe_wrapper_falsy_guard :
    (∀ (σ : Type) (R : CheckpointReader σ) (acc : Option PyVal) (fb : PyVal) (s : σ),
      truthy (checkpointStateValue acc fb) = false → observeStateWrapper R acc fb s = s) ∧
    (∀ (acc : Option PyVal) (fb s : PyVal), s ≠ PyVal.dict [] →
      observeStateWrapper ResumableFullRefreshCheckpointReader acc fb s ≠ PyVal.dict []) ∧
    (∀ v s : PyVal, ResumableFullRefreshCheckpointReader.observe v s = v) := by
  refine ⟨?_, ?_, fun _ _ => rfl⟩
  · intro σ R acc fb s h
    simp [observeStateWrapper, h]
  · intro acc fb s hs
    by_cases h : truthy (checkpointStateValue acc fb) = true
    · simpa [observeStateWrapper, ResumableFullRefreshCheckpointReader, h] using
        truthy_ne_emptyDict h
    · simp only [Bool.not_eq_true] at h
      simpa [observeStateWrapper, h] using hs

/-- Witness for C10 at concrete inputs: the wrapper ignores an
accessor-reported empty mapping, and the reconciliation path keeps the
stored state away from the empty mapping. -/
theorem C10_observe_wrapper_falsy_guard_witness :
    observeStateWrapper ResumableFullRefreshCheckpointReader (some (PyVal.dict []))
      PyVal.none pageState = pageState ∧
    observeStateWrapper ResumableFullRefreshCheckpointReader (some accState20)
      PyVal.none pageState ≠ PyVal.dict [] :=
  ⟨C10_observe_wrapper_falsy_guard.1 PyVal ResumableFullRefreshCheckpointReader
      (some (PyVal.dict [])) PyVal.none pageState rfl,
   C10_observe_wrapper_falsy_guard.2.1 (some accState20) PyVal.none pageState
      (by simp [pageState])⟩

/-- Witness for C4 at concrete inputs: `has_next` is false on the empty
mapping and true on a non-empty stored state. -/
theorem C4_rfr_reader_state_machine_witness :
    ResumableFullRefreshCheckpointReader.has_next (PyVal.dict []) = false ∧
    ResumableFullRefreshCheckpointReader.next pageState = some (pageState, pageState) :=
  ⟨(C4_rfr_reader_state_machine.1 (PyVal.dict [])).mpr rfl,
   C4_rfr_reader_state_machine.2.2.2 pageState⟩

/-- Witness for C6 at concrete inputs: the accessor value wins when
present, the fallback is used when the accessor raises. -/
theorem C6_reconciliation_preference_witness :
    checkpointStateValue (some accState20) ssU1 = accState20 ∧
    checkpointStateValue Option.none ssU1 = ssU1 :=
  ⟨C6_reconciliation_preference.1 accState20 ssU1,
   C6_reconciliation_preference.2.1 ssU1⟩

/-- C7: a full-refresh sync in which zero partitions are produced (the
first `next()` raises `StopIteration`) and no progress state is derivable
(accessor never implemented, incoming state `{}`) emits exactly one
checkpoint, carrying the reserved sentinel marker; and, in general, when
the loop terminates with no partitions produced or in full-refresh mode,
the run's final emission is a state message (the post-loop flush of
core.py lines 290-299). -/
theorem C7_final_checkpoint_sentinel :
    (∀ (spec : StreamSpec) (fuel : Nat), (∀ i, spec.accessor i = Option.none) →
      0 < fuel →
      (readWith spec exhaustedReader () 0 SyncMode.full_refresh (PyVal.dict []) fuel).out =
        [Emitted.state fullRefreshSentinelState]) ∧
    (∀ (σ : Type) (R : CheckpointReader σ) (init : σ) (accStart : Nat)
      (spec : StreamSpec) (mode : SyncMode) (ss : PyVal) (fuel : Nat),
      (readLoop spec R mode ss fuel init accStart 0 false 0).completed = true →
      ((readLoop spec R mode ss fuel init accStart 0 false 0).hasSlices = false ∨
        mode = SyncMode.full_refresh) →
      ∃ v, (readWith spec R init accStart mode ss fuel).out.getLast? =
        some (Emitted.state v)) := by
  constructor
  · intro spec fuel hacc hfuel
    obtain ⟨f, rfl⟩ : ∃ f, fuel = f + 1 := ⟨fuel - 1, by omega⟩
    simp [readWith, readLoop, exhaustedReader, checkpointStateValue, hacc 0,
      fullRefreshSentinelState, truthy]
  · intro σ R init accStart spec mode ss fuel hc hcond
    have hcond' : (!(readLoop spec R mode ss fuel init accStart 0 false 0).hasSlices ||
        decide (mode = SyncMode.full_refresh)) = true := by
      rcases hcond with h | h
      · simp [h]
      · simp [h]
    simp only [readWith, hc, hcond', if_true]
    exact ⟨_, List.getLast?_concat _⟩

/-- Witness for C7 at concrete inputs: the zero-partition full-refresh run
emits exactly the sentinel checkpoint, and its last emission is a state
message. -/
theorem C7_final_checkpoint_sentinel_witness :
    (readWith intervalOneScenario exhaustedReader () 0 SyncMode.full_refresh
      (PyVal.dict []) 3).out = [Emitted.state fullRefreshSentinelState] ∧
    ∃ v, (readWith intervalOneScenario exhaustedReader () 0 SyncMode.full_refresh
      (PyVal.dict []) 3).out.getLast? = some (Emitted.state v) :=
  ⟨C7_final_checkpoint_sentinel.1 intervalOneScenario 3 (fun _ => rfl) (by decide),
   C7_final_checkpoint_sentinel.2 Unit exhaustedReader () 0 intervalOneScenario
      SyncMode.full_refresh (PyVal.dict []) 3 rfl (Or.inl rfl)⟩

theorem processRecords_gus_irrel (a : Bool) (cf : CursorField) (ci : Option Nat)
    (sl : List PyVal) (ac : Nat → Option PyVal) (rrf : Nat → List StreamData)
    (g₁ g₂ : PyVal → PyVal → PyVal) (sls : Bool) (lim : Option Nat)
    (hcf : cf.pyTruthy = false) :
    ∀ {σ : Type} (R : CheckpointReader σ) (mode : SyncMode) (ss : PyVal)
      (rs : List StreamData) (s : σ) (acc cnt : Nat),
      processRecords ⟨a, cf, ci, sl, ac, rrf, g₁, sls, lim⟩ R mode ss rs s acc cnt =
      processRecords ⟨a, cf, ci, sl, ac, rrf, g₂, sls, lim⟩ R mode ss rs s acc cnt := by
  intro σ R mode ss rs
  induction rs with
  | nil => intro s acc cnt; rfl
  | cons r rest ih =>
    intro s acc cnt
    cases hd : r.isDataRecord <;> simp [processRecords, hd, hcf, ih]

theorem readLoop_gus_irrel (a : Bool) (cf : CursorField) (ci : Option Nat)
    (sl : List PyVal) (ac : Nat → Option PyVal) (rrf : Nat → List StreamData)
    (g₁ g₂ : PyVal → PyVal → PyVal) (sls : Bool) (lim : Option Nat)
    (hcf : cf.pyTruthy = false) :
    ∀ {σ : Type} (R : CheckpointReader σ) (mode : SyncMode) (ss : PyVal)
      (fuel : Nat) (s : σ) (acc cnt : Nat) (hs : Bool) (rr : Nat),
      readLoop ⟨a, cf, ci, sl, ac, rrf, g₁, sls, lim⟩ R mode ss fuel s acc cnt hs rr =
      readLoop ⟨a, cf, ci, sl, ac, rrf, g₂, sls, lim⟩ R mode ss fuel s acc cnt hs rr := by
  intro σ R mode ss fuel
  induction fuel with
  | zero => intro s acc cnt hs rr; rfl
  | succ f ih =>
    intro s acc cnt hs rr
    cases hn : R.next s with
    | none => simp [readLoop, hn]
    | some p =>
      simp [readLoop, hn, processRecords_gus_irrel a cf ci sl ac rrf g₁ g₂ sls lim hcf, ih]

/-- C9: `supports_incremental` is true iff the wrapped cursor-field
descriptor is non-empty; and for a stream without a cursor field (the
`self.cursor_field` truthiness gate of core.py line 268 is off) the whole
`Stream.read` output is independent of the legacy `get_updated_state`
extraction function — no cursor-derived state is ever observed, so no
cursor-based checkpoint is ever emitted, mid-partition or otherwise. -/
theorem C9_supports_incremental_no_cursor :
    (∀ cf : CursorField,
      Stream.supportsIncremental cf = true ↔ Stream.wrappedCursorField cf ≠ []) ∧
    (∀ (spec : StreamSpec) (g₁ g₂ : PyVal → PyVal → PyVal) (mode : SyncMode)
      (ss : PyVal) (fuel : Nat), spec.cursorField.pyTruthy = false →
      Stream.read { spec with getUpdatedState := g₁ } mode ss fuel =
      Stream.read { spec with getUpdatedState := g₂ } mode ss fuel) := by
  constructor
  · intro cf
    simp [Stream.supportsIncremental, List.length_pos]
  · intro spec g₁ g₂ mode ss fuel hcf
    obtain ⟨a, cf, ci, sl, ac, rrf, gus, sls, lim⟩ := spec
    simp only [StreamSpec.cursorField] at hcf
    cases a <;>
      simp [Stream.read, readWith,
        readLoop_gus_irrel false cf ci sl ac rrf g₁ g₂ sls lim hcf,
        readLoop_gus_irrel true cf ci sl ac rrf g₁ g₂ sls lim hcf]

/-- Witness for C9 at concrete inputs: a cursor-less run is unchanged when
the legacy extraction function is swapped. -/
theorem C9_supports_incremental_no_cursor_witness :
    Stream.read { intervalOneScenario with getUpdatedState := fun _ _ => pageState }
      SyncMode.incremental ssK1 5 =
    Stream.read { intervalOneScenario with getUpdatedState := fun _ _ => accState20 }
      SyncMode.incremental ssK1 5 :=
  C9_supports_incremental_no_cursor.2 intervalOneScenario
    (fun _ _ => pageState) (fun _ _ => accState20) SyncMode.incremental ssK1 5 rfl

/-- C5 counterexample: the claim states interval checkpoints are flushed
in every sync attempt, but the interval logic (core.py lines 274-279) is
gated on `sync_mode == SyncMode.incremental`. In a full-refresh attempt
with `checkpointInterval = 1` and two data records, the claim requires a
checkpoint immediately after the first record (in addition to the
partition-boundary and final flushes); the code emits the two records
adjacently, with no state message between them. -/
theorem C5_interval_checkpoint_counterexample :
    (Stream.read intervalOneScenario SyncMode.full_refresh ssK1 5).out =
      [Emitted.data (StreamData.mapping rec1), Emitted.data (StreamData.mapping rec2),
       Emitted.state PyVal.none, Emitted.state ssK1] := rfl

theorem processRecords_interval (N : Nat) (ds0 : List PyVal) (ss : PyVal) (hN : 0 < N) :
    ∀ {σ : Type} (R : CheckpointReader σ) (ds : List PyVal) (s : σ) (acc cnt : Nat),
      ∃ acc', processRecords (intervalScenario N ds0) R SyncMode.incremental ss
          (ds.map StreamData.mapping) s acc cnt =
        (interleaveAfterEveryNth ss N ds cnt, s, acc', cnt + ds.length) := by
  have hcf : (intervalScenario N ds0).cursorField.pyTruthy = false := rfl
  have hci : (intervalScenario N ds0).stateCheckpointInterval = some N := rfl
  have hacc : ∀ i, (intervalScenario N ds0).accessor i = Option.none := fun _ => rfl
  have hlim : (intervalScenario N ds0).limit = Option.none := rfl
  intro σ R ds
  induction ds with
  | nil =>
    intro s acc cnt
    exact ⟨acc, by simp [processRecords, interleaveAfterEveryNth]⟩
  | cons d rest ih =>
    intro s acc cnt
    have hNne : (N != 0) = true := by simp; omega
    obtain ⟨a', ha⟩ := ih s (acc + 1) (cnt + 1)
    obtain ⟨a'', ha'⟩ := ih s acc (cnt + 1)
    by_cases hmod : ((cnt + 1) % N == 0) = true
    · refine ⟨a', ?_⟩
      simp [processRecords, StreamData.isDataRecord, hcf, hci, hacc, hlim,
        intervalHit, isLimitReached, hNne, hmod,
        checkpointStateValue, interleaveAfterEveryNth, ha]
      omega
    · simp only [Bool.not_eq_true] at hmod
      refine ⟨a'', ?_⟩
      simp [processRecords, StreamData.isDataRecord, hcf, hci, hacc, hlim,
        intervalHit, isLimitReached, hNne, hmod,
        checkpointStateValue, interleaveAfterEveryNth, ha']
      omega

theorem processRecords_fr (N : Nat) (ds0 : List PyVal) (ss : PyVal) :
    ∀ {σ : Type} (R : CheckpointReader σ) (ds : List PyVal) (s : σ) (acc cnt : Nat),
      processRecords (intervalScenario N ds0) R SyncMode.full_refresh ss
          (ds.map StreamData.mapping) s acc cnt =
        (ds.map (fun d => Emitted.data (StreamData.mapping d)), s, acc, cnt + ds.length) := by
  have hcf : (intervalScenario N ds0).cursorField.pyTruthy = false := rfl
  have hlim : (intervalScenario N ds0).limit = Option.none := rfl
  intro σ R ds
  induction ds with
  | nil => intro s acc cnt; simp [processRecords]
  | cons d rest ih =>
    intro s acc cnt
    simp [processRecords, StreamData.isDataRecord, hcf, hlim, isLimitReached, ih]
    omega

theorem incRun_out (N : Nat) (ds : List PyVal) (ss : PyVal) (fuel : Nat)
    (hN : 0 < N) (hfuel : 0 < fuel) :
    (Stream.read (intervalScenario N ds) SyncMode.incremental ss fuel).out =
      interleaveAfterEveryNth ss N ds 0 ++ [Emitted.state PyVal.none] := by
  obtain ⟨f, rfl⟩ : ∃ f, fuel = f + 1 := ⟨fuel - 1, by omega⟩
  have hrfr : (intervalScenario N ds).supportsResumableFullRefresh = false := rfl
  have hsl : (intervalScenario N ds).streamSlices = [PyVal.none] := rfl
  have hrr0 : (intervalScenario N ds).readRecordsResult 0 = ds.map StreamData.mapping := rfl
  have hacc : ∀ i, (intervalScenario N ds).accessor i = Option.none := fun _ => rfl
  have hlog : (intervalScenario N ds).shouldLogSlice = false := rfl
  obtain ⟨a', ha⟩ := processRecords_interval N ds ss hN IncrementalCheckpointReader ds
    (incrementalInit [PyVal.none]) 0 0
  have hnext : IncrementalCheckpointReader.next (incrementalInit [PyVal.none]) =
      some (PyVal.genObj [PyVal.none], incrementalInit [PyVal.none]) := rfl
  have hhn : ∀ s, IncrementalCheckpointReader.has_next s = true := fun _ => rfl
  have hrs : IncrementalCheckpointReader.read_state (incrementalInit [PyVal.none]) =
      PyVal.none := rfl
  have hobs : observeStateWrapper IncrementalCheckpointReader Option.none PyVal.none
      (incrementalInit [PyVal.none]) = incrementalInit [PyVal.none] := rfl
  simp [Stream.read, hrfr, readWith, readLoop, hsl, hrr0, hacc, hlog,
    hnext, hhn, hrs, hobs, newCheckpointStateValue, ha]

theorem frRun_out (N : Nat) (ds : List PyVal) (ss : PyVal) (fuel : Nat)
    (hfuel : 0 < fuel) :
    (Stream.read (intervalScenario N ds) SyncMode.full_refresh ss fuel).out =
      ds.map (fun d => Emitted.data (StreamData.mapping d)) ++
        [Emitted.state PyVal.none,
         Emitted.state (if truthy ss = true then ss else fullRefreshSentinelState)] := by
  obtain ⟨f, rfl⟩ : ∃ f, fuel = f + 1 := ⟨fuel - 1, by omega⟩
  have hrfr : (intervalScenario N ds).supportsResumableFullRefresh = false := rfl
  have hsl : (intervalScenario N ds).streamSlices = [PyVal.none] := rfl
  have hrr0 : (intervalScenario N ds).readRecordsResult 0 = ds.map StreamData.mapping := rfl
  have hacc : ∀ i, (intervalScenario N ds).accessor i = Option.none := fun _ => rfl
  have hlog : (intervalScenario N ds).shouldLogSlice = false := rfl
  have hnext : IncrementalCheckpointReader.next (incrementalInit [PyVal.none]) =
      some (PyVal.genObj [PyVal.none], incrementalInit [PyVal.none]) := rfl
  have hhn : ∀ s, IncrementalCheckpointReader.has_next s = true := fun _ => rfl
  have hrs : IncrementalCheckpointReader.read_state (incrementalInit [PyVal.none]) =
      PyVal.none := rfl
  have hobs : observeStateWrapper IncrementalCheckpointReader Option.none PyVal.none
      (incrementalInit [PyVal.none]) = incrementalInit [PyVal.none] := rfl
  have ha := processRecords_fr N ds ss IncrementalCheckpointReader ds
    (incrementalInit [PyVal.none]) 0 0
  simp [Stream.read, hrfr, readWith, readLoop, hsl, hrr0, hacc, hlog,
    hnext, hhn, hrs, hobs, newCheckpointStateValue, checkpointStateValue, ha]

theorem interleave_tags (ss ss' : PyVal) (N : Nat) :
    ∀ (ds ds' : List PyVal) (cnt : Nat), ds.length = ds'.length →
      (interleaveAfterEveryNth ss N ds cnt).map Emitted.isState =
      (interleaveAfterEveryNth ss' N ds' cnt).map Emitted.isState := by
  intro ds
  induction ds with
  | nil =>
    intro ds' cnt h
    cases ds' with
    | nil => rfl
    | cons d' rest' => simp at h
  | cons d rest ih =>
    intro ds' cnt h
    cases ds' with
    | nil => simp at h
    | cons d' rest' =>
      simp only [List.length_cons, Nat.add_right_cancel_iff] at h
      cases hc : ((cnt + 1) % N == 0) <;>
        simp [interleaveAfterEveryNth, hc, Emitted.isState, ih rest' (cnt + 1) h]

/-- C5 as amended: only in incremental-mode sync attempts is a checkpoint
flushed immediately after every Nth data record (the count running across
the attempt), in addition to the partition-boundary flush; a full-refresh
attempt with the same interval emits no intra-partition checkpoint at all
(only the boundary and final flushes); and the positions of the
checkpoints among the emissions depend only on the interval and the number
of records, so replaying a partition with the same interval yields
checkpoints at the same record offsets. -/
theorem C5_interval_checkpoint_amended (N : Nat) (ss : PyVal) (ds : List PyVal)
    (fuel : Nat) (hN : 0 < N) (hfuel : 0 < fuel) :
    ((Stream.read (intervalScenario N ds) SyncMode.incremental ss fuel).out =
      interleaveAfterEveryNth ss N ds 0 ++ [Emitted.state PyVal.none]) ∧
    ((Stream.read (intervalScenario N ds) SyncMode.full_refresh ss fuel).out =
      ds.map (fun d => Emitted.data (StreamData.mapping d)) ++
        [Emitted.state PyVal.none,
         Emitted.state (if truthy ss = true then ss else fullRefreshSentinelState)]) ∧
    (∀ ds' : List PyVal, ds.length = ds'.length →
      (Stream.read (intervalScenario N ds) SyncMode.incremental ss fuel).out.map
          Emitted.isState =
      (Stream.read (intervalScenario N ds') SyncMode.incremental ss fuel).out.map
          Emitted.isState) := by
  refine ⟨incRun_out N ds ss fuel hN hfuel, frRun_out N ds ss fuel hfuel, ?_⟩
  intro ds' h
  rw [incRun_out N ds ss fuel hN hfuel, incRun_out N ds' ss fuel hN hfuel]
  simp [interleave_tags ss ss N ds ds' 0 h]

/-- Witness for C5 (amended) at concrete inputs: interval 2, two records,
incremental mode. -/
theorem C5_interval_checkpoint_amended_witness :
    (Stream.read (intervalScenario 2 [rec1, rec2]) SyncMode.incremental ssK1 5).out =
      interleaveAfterEveryNth ssK1 2 [rec1, rec2] 0 ++ [Emitted.state PyVal.none] :=
  (C5_interval_checkpoint_amended 2 ssK1 [rec1, rec2] 5 (by decide) (by decide)).1

theorem wrapComponents_ok :
    ∀ comps : List PyVal, comps.all (fun c => c.isStrVal || c.isListVal) = true →
      wrapComponents comps = Except.ok (comps.map wrapOneComponent) := by
  intro comps
  induction comps with
  | nil => intro h; rfl
  | cons c rest ih =>
    intro h
    simp only [List.all_cons, Bool.and_eq_true] at h
    cases c with
    | str s => simp [wrapComponents, ih h.2, wrapOneComponent, Except.map]
    | list l => simp [wrapComponents, ih h.2, wrapOneComponent, Except.map]
    | none => simp [PyVal.isStrVal, PyVal.isListVal] at h
    | bool b => simp [PyVal.isStrVal, PyVal.isListVal] at h
    | int n => simp [PyVal.isStrVal, PyVal.isListVal] at h
    | dict fields => simp [PyVal.isStrVal, PyVal.isListVal] at h
    | genObj xs => simp [PyVal.isStrVal, PyVal.isListVal] at h

theorem wrapComponents_error :
    ∀ comps : List PyVal, comps.all (fun c => c.isStrVal || c.isListVal) = false →
      ∃ e, wrapComponents comps = Except.error e := by
  intro comps
  induction comps with
  | nil => intro h; simp at h
  | cons c rest ih =>
    intro h
    simp only [List.all_cons, Bool.and_eq_false_iff] at h
    cases c with
    | str s =>
      rcases h with h | h
      · simp [PyVal.isStrVal] at h
      · obtain ⟨e, he⟩ := ih h
        exact ⟨e, by simp [wrapComponents, he, Except.map]⟩
    | list l =>
      rcases h with h | h
      · simp [PyVal.isStrVal, PyVal.isListVal] at h
      · obtain ⟨e, he⟩ := ih h
        exact ⟨e, by simp [wrapComponents, he, Except.map]⟩
    | none => exact ⟨_, rfl⟩
    | bool b => exact ⟨_, rfl⟩
    | int n => exact ⟨_, rfl⟩
    | dict fields => exact ⟨_, rfl⟩
    | genObj xs => exact ⟨_, rfl⟩

theorem any_not_eq_not_all (l : List PyVal) (p : PyVal → Bool) :
    l.any (fun c => !p c) = !l.all p := by
  induction l with
  | nil => rfl
  | cons x xs ih => simp [ih, Bool.not_and]

/-- C8 counterexample: the claim states `_wrapped_primary_key` raises
exactly when the declaration is neither absent, a string, a flat list of
strings, nor a list of lists. The mixed declaration `["a", ["b"]]` is none
of those shapes, yet the code (core.py lines 476-484) accepts it, wrapping
the string component and passing the list component through. -/
theorem C8_primary_key_counterexample :
    specWellFormedPK mixedPK = false ∧
    Stream.wrappedPrimaryKey mixedPK =
      Except.ok (some [PyVal.list [PyVal.str "a"], PyVal.list [PyVal.str "b"]]) :=
  ⟨rfl, rfl⟩

/-- C8 as amended: `_wrapped_primary_key` raises exactly when the
declaration is truthy and neither a string nor a list, or is a list
containing a component that is neither a string nor a list; every falsy
declaration (`None`, the empty string, the empty list, ...) yields the
absent result; a (non-empty) string `k` becomes `[[k]]`; and in a list
whose components are each a string or a list, a string component becomes a
singleton and a list component passes through unchanged. -/
theorem C8_primary_key_amended :
    (∀ keys : PyVal,
      (∃ e, Stream.wrappedPrimaryKey keys = Except.error e) ↔
        amendedPKMalformed keys = true) ∧
    (∀ keys : PyVal, truthy keys = false →
      Stream.wrappedPrimaryKey keys = Except.ok Option.none) ∧
    (∀ s : String, truthy (PyVal.str s) = true →
      Stream.wrappedPrimaryKey (PyVal.str s) =
        Except.ok (some [PyVal.list [PyVal.str s]])) ∧
    (∀ comps : List PyVal, truthy (PyVal.list comps) = true →
      comps.all (fun c => c.isStrVal || c.isListVal) = true →
      Stream.wrappedPrimaryKey (PyVal.list comps) =
        Except.ok (some (comps.map wrapOneComponent))) := by
  refine ⟨?_, ?_, ?_, ?_⟩
  · intro keys
    cases keys with
    | none => simp [Stream.wrappedPrimaryKey, truthy, amendedPKMalformed]
    | bool b =>
      cases b <;>
        simp [Stream.wrappedPrimaryKey, truthy, amendedPKMalformed, PyVal.isStrVal]
    | int n =>
      by_cases hn : (n != 0) = true
      · simp [Stream.wrappedPrimaryKey, truthy, hn, amendedPKMalformed, PyVal.isStrVal]
      · simp only [Bool.not_eq_true] at hn
        simp [Stream.wrappedPrimaryKey, truthy, hn, amendedPKMalformed, PyVal.isStrVal]
    | str s =>
      by_cases hs : s.isEmpty = true
      · simp [Stream.wrappedPrimaryKey, truthy, hs, amendedPKMalformed, PyVal.isStrVal]
      · simp only [Bool.not_eq_true] at hs
        simp [Stream.wrappedPrimaryKey, truthy, hs, amendedPKMalformed, PyVal.isStrVal]
    | genObj xs =>
      simp [Stream.wrappedPrimaryKey, truthy, amendedPKMalformed, PyVal.isStrVal]
    | dict fields =>
      cases fields with
      | nil => simp [Stream.wrappedPrimaryKey, truthy, amendedPKMalformed, PyVal.isStrVal]
      | cons p ps =>
        simp [Stream.wrappedPrimaryKey, truthy, amendedPKMalformed, PyVal.isStrVal,
          List.isEmpty]
    | list comps =>
      cases comps with
      | nil => simp [Stream.wrappedPrimaryKey, truthy, amendedPKMalformed]
      | cons c rest =>
        have hA : amendedPKMalformed (PyVal.list (c :: rest)) =
            !(c :: rest).all (fun x => x.isStrVal || x.isListVal) := by
          simp only [amendedPKMalformed]
          exact any_not_eq_not_all (c :: rest) (fun x => x.isStrVal || x.isListVal)
        rw [hA]
        by_cases hall : (c :: rest).all (fun x => x.isStrVal || x.isListVal) = true
        · simp only [Stream.wrappedPrimaryKey, truthy, wrapComponents_ok _ hall, hall]
          simp [List.isEmpty, Except.map]
        · simp only [Bool.not_eq_true] at hall
          obtain ⟨e, he⟩ := wrapComponents_error _ hall
          simp only [Stream.wrappedPrimaryKey, truthy, he, hall]
          simp [List.isEmpty, Except.map]
  · intro keys h
    simp [Stream.wrappedPrimaryKey, h]
  · intro s h
    simp only [truthy, Bool.not_eq_true'] at h
    simp [Stream.wrappedPrimaryKey, truthy, h]
  · intro comps ht hall
    simp only [truthy, Bool.not_eq_true'] at ht
    simp [Stream.wrappedPrimaryKey, truthy, ht, wrapComponents_ok _ hall, Except.map]

/-- Witness for C8 (amended) at concrete inputs: a string declaration is
wrapped, an absent declaration yields the absent result, and an integer
declaration is malformed. -/
theorem C8_primary_key_amended_witness :
    Stream.wrappedPrimaryKey (PyVal.str "id") =
      Except.ok (some [PyVal.list [PyVal.str "id"]]) ∧
    Stream.wrappedPrimaryKey PyVal.none = Except.ok Option.none ∧
    amendedPKMalformed (PyVal.int 5) = true :=
  ⟨C8_primary_key_amended.2.2.1 "id" rfl,
   C8_primary_key_amended.2.1 PyVal.none rfl,
   (C8_primary_key_amended.1 (PyVal.int 5)).mp
     ⟨"Element must be either list or str", rfl⟩⟩
